import Mathlib

/-!
Verification development for the ValgAce serial-protocol module
(`src/extras/ace.py`, class `ValgAce`).

The Python source is shallowly embedded below:
* bytes are `Nat` values (`< 256` where it matters), byte strings are
  `List Nat`;
* Python's unbounded integers are `Nat`/`Int`;
* dictionaries with a fixed key set become structures with `Option`
  fields (`none` = key absent), and `dict.get(k, d)` becomes
  `Option.getD`;
* the mutable object state becomes explicit state records, and methods
  become state-transition functions that also return the list of
  externally visible events (requests handed to `send_request`,
  callback invocations, gcode scripts) they perform;
* a Python `dict` used as a map with unique keys (`_callback_map`,
  `_request_timeout_timers`) becomes an association list; `dict.pop` is
  modelled by filtering the key out (which agrees with `pop` because
  dict keys are unique), and `d[k] = v` by filtering the key out and
  appending `(k, v)`.
-/

namespace ValgAce

/-! ## Codec: CRC16 (`_calc_crc`, ace.py lines 425-431) -/

/-- One step of the CRC recurrence, exactly as in `_calc_crc`:
`data = byte ^ (crc & 0xff)`; `data ^= (data & 0x0f) << 4`;
`crc = ((data << 8) | (crc >> 8)) ^ (data >> 4) ^ (data << 3)`.
Python ints are unbounded, so no intermediate masking happens. -/
def crcStep (crc b : Nat) : Nat :=
  let data := b ^^^ (crc &&& 0xff)
  let data := data ^^^ ((data &&& 0x0f) <<< 4)
  ((data <<< 8) ||| (crc >>> 8)) ^^^ (data >>> 4) ^^^ (data <<< 3)

/-- `_calc_crc(buffer)`: fold `crcStep` over the payload starting from
`0xffff`, returning `crc & 0xffff`. -/
def calc_crc (buffer : List Nat) : Nat :=
  (buffer.foldl crcStep 0xffff) &&& 0xffff

/-- The CRC recurrence as the spec states it (spec §6): the same step but
with every intermediate result masked to 16 bits, initial value `0xFFFF`,
final `crc & 0xFFFF`.  Used to compare the source CRC with the spec's
wording. -/
def crc16_spec (buffer : List Nat) : Nat :=
  (buffer.foldl (fun crc b => crcStep crc b % 65536) 0xffff) % 65536

/-! ## Codec: encoding (`_send_request`, ace.py lines 473-486) -/

/-- `struct.pack('<H', n)` as a byte list (little endian).  The source
raises for `n ≥ 2^16`; theorems about this model carry the
corresponding bound as a hypothesis. -/
def le16 (n : Nat) : List Nat := [n % 256, n / 256 % 256]

/-- The packet built by `_send_request` once the payload has serialized:
`bytes([0xFF, 0xAA]) + struct.pack('<H', len(payload)) + payload +
struct.pack('<H', crc) + bytes([0xFE])`. -/
def encodePacket (payload : List Nat) : List Nat :=
  [0xFF, 0xAA] ++ le16 payload.length ++ payload ++ le16 (calc_crc payload) ++ [0xFE]

/-- `struct.unpack('<H', ...)` of two bytes (little endian), as used when
decoding the length and CRC fields. -/
def leDecode2 (b0 b1 : Nat) : Nat := b0 + 256 * b1

/-! ## Request ids (`_get_next_request_id`, ace.py lines 452-456) -/

/-- `_get_next_request_id`: increment `_request_id`, reset it to 0 once it
reaches 300000, and return the new value.  The returned id and the new
counter state coincide. -/
def get_next_request_id (r : Nat) : Nat :=
  let r := r + 1
  if r ≥ 300000 then 0 else r

/-- The value of `_request_id` (equivalently, the id returned by the n-th
call of `_get_next_request_id`) after `n` calls, starting from the
constructor's initial value 0. -/
def idAfter (n : Nat) : Nat := get_next_request_id^[n] 0

/-! ## Requests, responses and observable events -/

/-- A request handed to `send_request` (only the fields the claims need:
the method name and the `index`/`length`/`speed` params). -/
structure AceRequest where
  method : String
  index : Option Int := none
  length : Option Int := none
  speed : Option Int := none
deriving Repr, DecidableEq

/-- A decoded `result` object, restricted to the fields the park logic
reads (`status`, `feed_assist_count`).  `none` means the key is absent. -/
structure StatusUpdate where
  status : Option String := none
  feed_assist_count : Option Int := none
deriving Repr, DecidableEq

/-- A decoded response object: optional `id`, optional `code`, optional
structured `result`. -/
structure Response where
  id : Option Nat := none
  code : Option Int := none
  result : Option StatusUpdate := none
deriving Repr, DecidableEq

/-- What a pending callback is invoked with: a real response, the
synthetic timeout error, or the synthetic queue-overflow error. -/
inductive CallbackArg where
  | resp (r : Response)
  | timeoutErr (id : Nat)
  | overflowErr
deriving Repr, DecidableEq

/-- Externally visible events performed by the embedded methods.
Callbacks are identified by `Nat` tokens.  `dwellEv` stands for a
scheduled delay (the float duration is irrelevant to the claims and
omitted); `waitSlotReady` for registering the `_wait_for_slot_ready`
poll timer; `runScript` names the gcode script issued (arguments
omitted). -/
inductive Event where
  | invokeCb (cb : Nat) (arg : CallbackArg)
  | sendReq (r : AceRequest)
  | sent (id : Nat)
  | runScript (s : String)
  | dwellEv
  | waitSlotReady (index : Int)
deriving Repr, DecidableEq

/-! ## Correlation table and outbound queue
(`send_request` lines 432-450, `_on_request_timeout` lines 458-465,
`_handle_response` correlation part lines 575-587, `_writer_loop`
queue part lines 551-558) -/

/-- Dispatcher state: the outbound FIFO `_queue` as a list of
(request id, callback) pairs with the head at the front, the
`_callback_map`, the set of armed `_request_timeout_timers` (by id),
and the `_request_id` counter.  The request body is irrelevant to the
dispatch claims and not stored in the queue. -/
structure DispatchState where
  queue : List (Nat × Nat) := []
  callback_map : List (Nat × Nat) := []
  timers : List Nat := []
  request_id : Nat := 0
deriving Repr, DecidableEq

/-- `send_request` (lines 432-450): on overflow (`qsize >= max`) drain the
whole queue invoking every queued callback with the overflow error; then
assign the next id, push (request, callback), and arm a timeout timer
for the new id. -/
def send_request (max_queue_size : Nat) (s : DispatchState) (cb : Nat) :
    DispatchState × List Event :=
  let drained :=
    if s.queue.length ≥ max_queue_size then
      (([] : List (Nat × Nat)),
       s.queue.map fun p => Event.invokeCb p.2 CallbackArg.overflowErr)
    else (s.queue, [])
  let newId := get_next_request_id s.request_id
  ({ s with queue := drained.1 ++ [(newId, cb)],
            request_id := newId,
            timers := s.timers ++ [newId] },
   drained.2)

/-- `_on_request_timeout` (lines 458-465): pop the callback for the id
(invoking it with the synthetic timeout error if present), and drop the
timer bookkeeping entry. -/
def on_request_timeout (reqId : Nat) (s : DispatchState) :
    DispatchState × List Event :=
  let cb? := s.callback_map.lookup reqId
  let map := s.callback_map.filter fun p => p.1 != reqId
  let timers := s.timers.filter fun t => t != reqId
  match cb? with
  | some cb => ({ s with callback_map := map, timers := timers },
                [Event.invokeCb cb (CallbackArg.timeoutErr reqId)])
  | none => ({ s with callback_map := map, timers := timers }, [])

/-- The correlation part of `_handle_response` (lines 575-587): if the
response carries an id, pop and cancel its timeout timer, pop its
callback and invoke it with the response. -/
def handleResponseCorr (s : DispatchState) (resp : Response) :
    DispatchState × List Event :=
  match resp.id with
  | none => (s, [])
  | some reqId =>
    let timers := s.timers.filter fun t => t != reqId
    let cb? := s.callback_map.lookup reqId
    let map := s.callback_map.filter fun p => p.1 != reqId
    match cb? with
    | some cb => ({ s with timers := timers, callback_map := map },
                  [Event.invokeCb cb (CallbackArg.resp resp)])
    | none => ({ s with timers := timers, callback_map := map }, [])

/-- The queue-transmission part of `_writer_loop` (lines 551-558):
dequeue the head, install its callback into `_callback_map`, try to
send; on failure the task is re-`put`, i.e. appended at the BACK of the
FIFO.  `send_ok` abstracts the outcome of `_send_request` (the serial
write is an external collaborator). -/
def writerStep (send_ok : Bool) (s : DispatchState) :
    DispatchState × List Event :=
  match s.queue with
  | [] => (s, [])
  | (reqId, cb) :: rest =>
    let map := s.callback_map.filter (fun p => p.1 != reqId) ++ [(reqId, cb)]
    if send_ok then
      ({ s with queue := rest, callback_map := map }, [Event.sent reqId])
    else
      ({ s with queue := rest ++ [(reqId, cb)], callback_map := map }, [])

/-! ## Device status and the park state machine
(`_complete_parking` lines 634-667, park part of `_handle_response`
lines 589-626, `_park_to_toolhead` lines 925-968) -/

/-- The slice of `_info` the claims read: the device status string, the
feed-assist counter, and the slot status strings. -/
structure Info where
  status : String := "disconnected"
  feed_assist_count : Int := 0
  slots : List String := ["empty", "empty", "empty", "empty"]
deriving Repr, DecidableEq

/-- `self._info.update(result)` restricted to the modelled fields. -/
def infoUpdate (info : Info) (r : StatusUpdate) : Info :=
  { info with status := r.status.getD info.status,
              feed_assist_count := r.feed_assist_count.getD info.feed_assist_count }

/-- The park-session fields of the `ValgAce` object, with the
constructor's initial values as defaults. -/
structure ParkState where
  park_in_progress : Bool := false
  park_is_toolchange : Bool := false
  park_previous_tool : Int := -1
  park_index : Int := -1
  last_assist_count : Int := 0
  assist_hit_count : Nat := 0
  feed_assist_index : Int := -1
deriving Repr, DecidableEq

/-- The configuration values the park/tool-change logic reads, with the
source's defaults. -/
structure AceConfig where
  park_hit_count : Nat := 5
  disable_assist_after_toolchange : Bool := true
  tool_offset : Int := 0
  tool_slots : Int := 4
  toolchange_retract_length : Int := 100
  retract_speed : Int := 50
deriving Repr, DecidableEq

/-- `_complete_parking` (lines 634-667): no-op unless a park is in
progress; otherwise send `stop_feed_assist` for the parked slot (both
the success and the failure branch send it) and reset the parking
flags.  `_assist_hit_count` is NOT reset here. -/
def completeParking (cfg : AceConfig) (s : ParkState) (success : Bool) :
    ParkState × List Event :=
  if !s.park_in_progress then (s, [])
  else
    let _ := success
    ({ s with park_in_progress := false,
              park_is_toolchange := false,
              park_previous_tool := -1,
              park_index := -1,
              feed_assist_index :=
                if cfg.disable_assist_after_toolchange then -1
                else s.feed_assist_index },
     [Event.sendReq { method := "stop_feed_assist", index := some s.park_index }])

/-- The park-tracking part of `_handle_response` (lines 593-626), run for
every response whose `result` is a dict, after `_info.update(result)`:
only `status == 'ready'` samples are inspected; a changed
`feed_assist_count` (default 0 when absent) resets the stable-hit
counter, an unchanged one increments it, and reaching
`park_hit_count` completes the parking.  The commented-out
`PARK_TIMEOUT` check is absent from the source, so elapsed time is not
an input. -/
def handleParkUpdate (cfg : AceConfig) (s : ParkState) (r : StatusUpdate) :
    ParkState × List Event :=
  if s.park_in_progress then
    let current_status := r.status.getD "unknown"
    let current_assist_count := r.feed_assist_count.getD 0
    if current_status = "ready" then
      if current_assist_count ≠ s.last_assist_count then
        ({ s with last_assist_count := current_assist_count,
                  assist_hit_count := 0 }, [])
      else
        let s' := { s with assist_hit_count := s.assist_hit_count + 1 }
        if s'.assist_hit_count ≥ cfg.park_hit_count then
          completeParking cfg s' true
        else (s', [])
    else (s, [])
  else (s, [])

/-- `_handle_response` (lines 575-626) in full: the correlation part,
then — when `result` is a dict — the `_info` merge and the park
tracking. -/
def handle_response (cfg : AceConfig) (d : DispatchState) (p : ParkState)
    (info : Info) (resp : Response) :
    DispatchState × ParkState × Info × List Event :=
  let corr := handleResponseCorr d resp
  match resp.result with
  | some r =>
    let park := handleParkUpdate cfg p r
    (corr.1, park.1, infoUpdate info r, corr.2 ++ park.2)
  | none => (corr.1, p, info, corr.2)

/-- The synchronous part of `_park_to_toolhead` (lines 925-968): abort if
a park is already in progress, otherwise send `start_feed_assist` for
the slot.  The response callback is `startAssistCallback` below. -/
def park_to_toolhead (s : ParkState) (index : Int) : ParkState × List Event :=
  if s.park_in_progress then (s, [])
  else (s, [Event.sendReq { method := "start_feed_assist", index := some index }])

/-- `start_assist_callback` inside `_park_to_toolhead` (lines 931-964):
a nonzero `code` fails the parking; on success, `_last_assist_count` is
taken from the response's `result.feed_assist_count` if present, else
from `_info`, and the parking flags are set.  The
`self._assist_hit_count = 0` line is commented out in the source. -/
def startAssistCallback (cfg : AceConfig) (s : ParkState) (info : Info)
    (index : Int) (resp : Response) : ParkState × List Event :=
  if resp.code.getD 0 ≠ 0 then
    completeParking cfg s false
  else
    let result := resp.result.getD { status := none, feed_assist_count := none }
    let last :=
      match result.feed_assist_count with
      | some c => c
      | none => info.feed_assist_count
    ({ s with last_assist_count := last,
              park_in_progress := true,
              park_index := index }, [])

/-! ## Tool-change orchestrator
(`cmd_ACE_CHANGE_TOOL` lines 1011-1064, `_proceed_with_toolchange`
lines 1001-1009) -/

/-- The inputs `cmd_ACE_CHANGE_TOOL` reads besides the park state: the
configuration, the slot statuses from `_info`, the persisted current
tool (default -1) and whether `self.toolhead` is available. -/
structure ChangeToolCtx where
  cfg : AceConfig := {}
  slots : List String := ["ready", "ready", "ready", "ready"]
  current_tool : Int := -1
  toolhead_ready : Bool := true
deriving Repr, DecidableEq

/-- `_proceed_with_toolchange` (lines 1001-1009): call `_park_to_toolhead`
on the target tool, then schedule the `_ACE_POST_TOOLCHANGE` script via
`dwell(15.0, ...)`. -/
def proceedWithToolchange (s : ParkState) (tool : Int) : ParkState × List Event :=
  let r := park_to_toolhead s tool
  (r.1, r.2 ++ [Event.dwellEv])

/-- The synchronous part of `cmd_ACE_CHANGE_TOOL` (lines 1011-1064).
Events record the scripts run, the requests sent and the timers
scheduled, in program order.  When the source slot is valid and the
target is not (`tool = -1`), the source's else-branch at line 1062
still calls `_proceed_with_toolchange(local_tool, ...)` with
`local_tool = -1`. -/
def cmd_change_tool (ctx : ChangeToolCtx) (p : ParkState) (tool : Int) :
    ParkState × List Event :=
  let was := ctx.current_tool
  if was = tool then (p, [])
  else if tool ≠ -1 ∧ (tool < ctx.cfg.tool_offset ∨
        tool ≥ ctx.cfg.tool_offset + ctx.cfg.tool_slots) then (p, [])
  else
    let local_tool : Int := if tool = -1 then -1 else tool - ctx.cfg.tool_offset
    let local_was : Int := if was = -1 then -1 else was - ctx.cfg.tool_offset
    if local_tool ≠ -1 ∧ ctx.slots.getD local_tool.toNat "missing" ≠ "ready" then
      (p, [Event.runScript "_ACE_ON_EMPTY_ERROR"])
    else
      let p1 := { p with park_is_toolchange := true,
                         park_previous_tool := local_was }
      let ev0 := [Event.runScript "_ACE_PRE_TOOLCHANGE"]
      if ¬ ctx.toolhead_ready then (p1, ev0)
      else
        let ev1 := ev0 ++ [Event.runScript "SAVE_VARIABLE"]
        if local_was ≠ -1 then
          let ev2 := ev1 ++
            [Event.sendReq { method := "unwind_filament",
                             index := some local_was,
                             length := some ctx.cfg.toolchange_retract_length,
                             speed := some ctx.cfg.retract_speed },
             Event.dwellEv, Event.dwellEv]
          if local_tool ≠ -1 then
            (p1, ev2 ++ [Event.waitSlotReady local_was])
          else
            let r := proceedWithToolchange p1 local_tool
            (r.1, ev2 ++ r.2)
        else
          let r := park_to_toolhead p1 local_tool
          (r.1, ev1 ++ r.2)

/-! ## Codec: decoding (`_process_messages`, ace.py lines 510-542)

The scan loop, with the number of loop iterations bounded by an explicit
fuel argument (each iteration that recurses consumes at least one
buffered byte, so `buf.length + 1` fuel is always enough).  Frames are
the CRC-valid payload byte lists; JSON decoding of a payload and the
dispatch to `_handle_response` are outside this function. -/

/-- Decoding outcome: emitted frames (in scan order), the remaining
buffer, and how many times `_reset_connection` was triggered by the
consecutive-incomplete-message counter. -/
structure DecodeResult where
  frames : List (List Nat)
  buffer : List Nat
  resets : Nat
deriving Repr, DecidableEq

/-- The body of the `while self.read_buffer:` loop of
`_process_messages`: find the first `0xFE`; the slice up to and
including it is removed from the buffer unconditionally; short or
unsynced slices are discarded; a slice shorter than
`4 + payload_len + 3` counts as an incomplete message (more than 10 in
a row trigger a reset); otherwise the CRC is checked and the payload
emitted on a match. -/
def processGo : Nat → Nat → List Nat → List (List Nat) → Nat → DecodeResult
  | 0, _, buf, acc, resets => ⟨acc.reverse, buf, resets⟩
  | fuel + 1, cnt, buf, acc, resets =>
    match buf.findIdx? (fun b => b == 0xFE) with
    | none => ⟨acc.reverse, buf, resets⟩
    | some i =>
      let msg := buf.take (i + 1)
      let rest := buf.drop (i + 1)
      if msg.length < 7 ∨ msg.take 2 ≠ [0xFF, 0xAA] then
        processGo fuel cnt rest acc resets
      else
        let payload_len := leDecode2 (msg.getD 2 0) (msg.getD 3 0)
        let expected_length := 4 + payload_len + 3
        if msg.length < expected_length then
          if cnt + 1 > 10 then processGo fuel 0 rest acc (resets + 1)
          else processGo fuel (cnt + 1) rest acc resets
        else
          let payload := (msg.drop 4).take payload_len
          let crc := leDecode2 (msg.getD (4 + payload_len) 0)
                               (msg.getD (4 + payload_len + 1) 0)
          if crc ≠ calc_crc payload then processGo fuel 0 rest acc resets
          else processGo fuel 0 rest (payload :: acc) resets

/-- `_process_messages`, starting with an empty frame accumulator and the
incomplete-message counter at 0 (it is a local variable of the
method). -/
def process_messages (buf : List Nat) : DecodeResult :=
  processGo (buf.length + 1) 0 buf [] 0

/-! # Theorems -/

/-! ## CRC bounds and spec agreement -/

theorem crcStep_lt (crc b : Nat) (hc : crc < 65536) (hb : b < 256) :
    crcStep crc b < 65536 := by
  unfold crcStep
  have hdata : b ^^^ (crc &&& 0xff) < 256 := by
    have h1 : b < 2 ^ 8 := by norm_num at hb ⊢; exact hb
    have h2 : crc &&& 0xff < 2 ^ 8 :=
      Nat.lt_of_le_of_lt Nat.and_le_right (by norm_num)
    have := Nat.xor_lt_two_pow h1 h2
    norm_num at this ⊢; exact this
  set d1 := b ^^^ (crc &&& 0xff) with hd1
  have hdata2 : d1 ^^^ ((d1 &&& 0x0f) <<< 4) < 256 := by
    have h1 : d1 < 2 ^ 8 := by norm_num at hdata ⊢; exact hdata
    have hle : (d1 &&& 0x0f) ≤ 15 := Nat.and_le_right
    have h2 : (d1 &&& 0x0f) <<< 4 < 2 ^ 8 := by
      rw [Nat.shiftLeft_eq]
      calc (d1 &&& 0x0f) * 2 ^ 4 ≤ 15 * 2 ^ 4 := Nat.mul_le_mul_right _ hle
        _ < 2 ^ 8 := by norm_num
    have := Nat.xor_lt_two_pow h1 h2
    norm_num at this ⊢; exact this
  set d2 := d1 ^^^ ((d1 &&& 0x0f) <<< 4) with hd2
  have hor : (d2 <<< 8) ||| (crc >>> 8) < 2 ^ 16 := by
    apply Nat.or_lt_two_pow
    · rw [Nat.shiftLeft_eq]
      calc d2 * 2 ^ 8 < 256 * 2 ^ 8 :=
            Nat.mul_lt_mul_of_pos_right hdata2 (by norm_num)
        _ = 2 ^ 16 := by norm_num
    · rw [Nat.shiftRight_eq_div_pow]
      calc crc / 2 ^ 8 ≤ crc := Nat.div_le_self _ _
        _ < 2 ^ 16 := by norm_num at hc ⊢; exact hc
  have hx1 : d2 >>> 4 < 2 ^ 16 := by
    rw [Nat.shiftRight_eq_div_pow]
    calc d2 / 2 ^ 4 ≤ d2 := Nat.div_le_self _ _
      _ < 256 := hdata2
      _ < 2 ^ 16 := by norm_num
  have hx2 : d2 <<< 3 < 2 ^ 16 := by
    rw [Nat.shiftLeft_eq]
    calc d2 * 2 ^ 3 < 256 * 2 ^ 3 :=
          Nat.mul_lt_mul_of_pos_right hdata2 (by norm_num)
      _ < 2 ^ 16 := by norm_num
  have := Nat.xor_lt_two_pow (Nat.xor_lt_two_pow hor hx1) hx2
  norm_num at this ⊢; exact this

theorem crc_foldl_lt : ∀ (buffer : List Nat), (∀ b ∈ buffer, b < 256) →
    ∀ init, init < 65536 → buffer.foldl crcStep init < 65536
  | [], _, _, hi => by simpa using hi
  | x :: xs, hb, init, hi => by
      simp only [List.foldl_cons]
      exact crc_foldl_lt xs (fun b h => hb b (List.mem_cons_of_mem _ h)) _
        (crcStep_lt init x hi (hb x (List.mem_cons_self _ _)))

/-- The CRC kept by the source stays below `2^16` at every step for byte
payloads, so the source recurrence and the spec's masked recurrence
agree. -/
theorem calc_crc_eq_spec (buffer : List Nat) (hb : ∀ b ∈ buffer, b < 256) :
    calc_crc buffer = crc16_spec buffer := by
  unfold calc_crc crc16_spec
  have key : ∀ (l : List Nat), (∀ b ∈ l, b < 256) → ∀ init, init < 65536 →
      l.foldl crcStep init = l.foldl (fun crc b => crcStep crc b % 65536) init := by
    intro l
    induction l with
    | nil => intro _ _ _; rfl
    | cons x xs ih =>
        intro hl init hi
        simp only [List.foldl_cons]
        rw [Nat.mod_eq_of_lt (crcStep_lt init x hi (hl x (List.mem_cons_self _ _)))]
        exact ih (fun b h => hl b (List.mem_cons_of_mem _ h)) _
          (crcStep_lt init x hi (hl x (List.mem_cons_self _ _)))
  rw [key buffer hb 0xffff (by norm_num)]
  exact Nat.and_pow_two_sub_one_eq_mod _ 16

/-! ## Request-id arithmetic -/

theorem idAfter_eq_mod (n : Nat) : idAfter n = n % 300000 := by
  induction n with
  | zero => rfl
  | succ n ih =>
      have hmod : n % 300000 < 300000 := Nat.mod_lt _ (by norm_num)
      unfold idAfter at ih ⊢
      rw [Function.iterate_succ_apply', ih]
      show (if n % 300000 + 1 ≥ 300000 then 0 else n % 300000 + 1) = (n + 1) % 300000
      split <;> omega

/-- Claim C9: for every payload that serializes, the encoder emits the
sync bytes 0xFF,0xAA, the payload length as a little-endian u16 equal
to the exact payload byte count, the payload, a little-endian u16 CRC
computed over the payload only by the spec §6 recurrence (with every
intermediate confined to 16 bits), and the terminator 0xFE. -/
theorem C9_encode_layout (payload : List Nat)
    (hb : ∀ b ∈ payload, b < 256) (hlen : payload.length < 65536) :
    encodePacket payload =
      [0xFF, 0xAA] ++
        [payload.length % 256, payload.length / 256] ++ payload ++
        [crc16_spec payload % 256, crc16_spec payload / 256] ++ [0xFE]
    ∧ leDecode2 (payload.length % 256) (payload.length / 256) = payload.length
    ∧ crc16_spec payload < 65536 := by
  have hcrc : calc_crc payload = crc16_spec payload := calc_crc_eq_spec payload hb
  have hcrclt : crc16_spec payload < 65536 := by
    unfold crc16_spec; exact Nat.mod_lt _ (by norm_num)
  have hdivlen : payload.length / 256 % 256 = payload.length / 256 :=
    Nat.mod_eq_of_lt (Nat.div_lt_of_lt_mul (by omega))
  have hdivcrc : crc16_spec payload / 256 % 256 = crc16_spec payload / 256 :=
    Nat.mod_eq_of_lt (Nat.div_lt_of_lt_mul (by omega))
  refine ⟨?_, ?_, hcrclt⟩
  · unfold encodePacket le16
    rw [hcrc, hdivlen, hdivcrc]
  · unfold leDecode2
    omega

theorem C9_encode_layout_witness :
    encodePacket [0x31] =
      [0xFF, 0xAA] ++
        [([0x31] : List Nat).length % 256, ([0x31] : List Nat).length / 256] ++
        [0x31] ++
        [crc16_spec [0x31] % 256, crc16_spec [0x31] / 256] ++ [0xFE]
    ∧ leDecode2 (([0x31] : List Nat).length % 256)
        (([0x31] : List Nat).length / 256) = ([0x31] : List Nat).length
    ∧ crc16_spec [0x31] < 65536 :=
  C9_encode_layout [0x31] (by decide) (by decide)

/-- Claim C4 is false as stated: starting from the fresh counter 0, the
300,001st generated id is 1, not 0 (the 300,000th id is 0, because the
counter is incremented before the wrap test). -/
theorem C4_counterexample : idAfter 300001 ≠ 0 := by
  rw [idAfter_eq_mod]; norm_num

/-- Claim C4 (amended): the n-th generated id is `n % 300000`; the
300,000th id is 0 and the 300,001st is 1; the value 300000 itself never
occurs and no two of any 300,000 consecutively generated ids collide. -/
theorem C4_id_wraparound :
    idAfter 300000 = 0 ∧ idAfter 300001 = 1 ∧
    (∀ n, idAfter n = n % 300000) ∧
    ∀ j k : Nat, j < k → k - j < 300000 → idAfter j ≠ idAfter k := by
  refine ⟨by rw [idAfter_eq_mod], by rw [idAfter_eq_mod], idAfter_eq_mod, ?_⟩
  intro j k hjk hwin heq
  rw [idAfter_eq_mod, idAfter_eq_mod] at heq
  omega

theorem C4_id_wraparound_witness :
    0 < 5 ∧ 5 - 0 < 300000 ∧ idAfter 0 ≠ idAfter 5 :=
  ⟨by decide, by decide, C4_id_wraparound.2.2.2 0 5 (by decide) (by decide)⟩

/-! ## Park state machine -/

/-- Claim C2: while a park session is active, a merged `ready` status with
a changed feed-assist count updates `last_assist_count` and resets the
stable-hit counter; an unchanged count increments it, completing the
session (clearing the flags and sending `stop_feed_assist` exactly once)
when the counter reaches `park_hit_count`; non-`ready` statuses change
nothing. -/
theorem C2_park_convergence (cfg : AceConfig) (s : ParkState)
    (r : StatusUpdate) (cnt : Int)
    (hp : s.park_in_progress = true)
    (hst : r.status = some "ready")
    (hcnt : r.feed_assist_count = some cnt) :
    (cnt ≠ s.last_assist_count →
      handleParkUpdate cfg s r =
        ({ s with last_assist_count := cnt, assist_hit_count := 0 }, []))
    ∧ (cnt = s.last_assist_count → s.assist_hit_count + 1 < cfg.park_hit_count →
      handleParkUpdate cfg s r =
        ({ s with assist_hit_count := s.assist_hit_count + 1 }, []))
    ∧ (cnt = s.last_assist_count → cfg.park_hit_count ≤ s.assist_hit_count + 1 →
      handleParkUpdate cfg s r =
        ({ s with assist_hit_count := s.assist_hit_count + 1,
                  park_in_progress := false,
                  park_is_toolchange := false,
                  park_previous_tool := -1,
                  park_index := -1,
                  feed_assist_index :=
                    if cfg.disable_assist_after_toolchange then -1
                    else s.feed_assist_index },
         [Event.sendReq { method := "stop_feed_assist", index := some s.park_index }]))
    ∧ (∀ r' : StatusUpdate, r'.status.getD "unknown" ≠ "ready" →
        handleParkUpdate cfg s r' = (s, [])) := by
  refine ⟨?_, ?_, ?_, ?_⟩
  · intro hne
    simp [handleParkUpdate, hp, hst, hcnt, hne]
  · intro heq hlt
    simp [handleParkUpdate, hp, hst, hcnt, heq, Nat.not_le.mpr hlt]
  · intro heq hge
    simp [handleParkUpdate, completeParking, hp, hst, hcnt, heq, hge]
  · intro r' hne
    simp [handleParkUpdate, hp, hne]

theorem C2_park_convergence_witness :
    (5 : Int) = 5 ∧ ({} : AceConfig).park_hit_count ≤ 4 + 1 ∧
    handleParkUpdate {}
        { park_in_progress := true, park_index := 2,
          last_assist_count := 5, assist_hit_count := 4 }
        { status := some "ready", feed_assist_count := some 5 } =
      ({ park_in_progress := false, park_is_toolchange := false,
         park_previous_tool := -1, park_index := -1,
         last_assist_count := 5, assist_hit_count := 5,
         feed_assist_index := -1 },
       [Event.sendReq { method := "stop_feed_assist", index := some 2 }]) :=
  ⟨rfl, by decide,
    (C2_park_convergence {}
      { park_in_progress := true, park_index := 2,
        last_assist_count := 5, assist_hit_count := 4 }
      { status := some "ready", feed_assist_count := some 5 } 5
      rfl rfl rfl).2.2.1 rfl (by decide)⟩

/-- Claim C3 is false as stated: the park-timeout check is commented out
in the source, so a Parking session past any wall-clock bound is NOT
transitioned to Failed by a processed status update — here a concrete
session processing a non-`ready` update stays Parking with no events
(elapsed time is not even an input to the handler). -/
theorem C3_counterexample :
    handleParkUpdate {}
        { park_in_progress := true, park_index := 2, last_assist_count := 5 }
        { status := some "busy" } =
      ({ park_in_progress := true, park_index := 2, last_assist_count := 5 }, [])
    ∧ ((handleParkUpdate {}
        { park_in_progress := true, park_index := 2, last_assist_count := 5 }
        { status := some "busy" }).1.park_in_progress = true) := by
  constructor <;> rfl

/-- Claim C3 (amended): the source enforces no park timeout at all —
`PARK_TIMEOUT` is defined but never consulted, elapsed time is not an
input to the status handler, and a Parking session that receives a
non-`ready` status update remains Parking unchanged, however long it
has been active. -/
theorem C3_no_timeout (cfg : AceConfig) (s : ParkState) (r : StatusUpdate)
    (hp : s.park_in_progress = true)
    (hnr : r.status.getD "unknown" ≠ "ready") :
    handleParkUpdate cfg s r = (s, [])
    ∧ (handleParkUpdate cfg s r).1.park_in_progress = true := by
  have h : handleParkUpdate cfg s r = (s, []) := by
    simp [handleParkUpdate, hp, hnr]
  exact ⟨h, by rw [h]; exact hp⟩

theorem C3_no_timeout_witness :
    handleParkUpdate {} { park_in_progress := true } { status := some "busy" } =
      ({ park_in_progress := true }, [])
    ∧ (handleParkUpdate {} { park_in_progress := true }
        { status := some "busy" }).1.park_in_progress = true :=
  C3_no_timeout {} { park_in_progress := true } { status := some "busy" }
    rfl (by decide)

/-- Claim C6 is false as stated: the `self._assist_hit_count = 0` reset in
the start-assist success callback is commented out in the source; a
session started while the counter holds 3 keeps it at 3. -/
theorem C6_counterexample :
    (startAssistCallback {} { assist_hit_count := 3 } {} 1
        { code := some 0 }).1.assist_hit_count ≠ 0 := by
  decide

/-- Claim C6 (amended): a park start whose `start_feed_assist` response
carries a zero (or absent) error code transitions to Parking and records
`last_assist_count` from the response's result when present, else from
the current DeviceStatus value — but does NOT reset the stable-hit
counter, which keeps its previous value. -/
theorem C6_start_callback (cfg : AceConfig) (s : ParkState) (info : Info)
    (index : Int) (resp : Response)
    (hcode : resp.code.getD 0 = 0) :
    startAssistCallback cfg s info index resp =
      ({ s with park_in_progress := true,
                park_index := index,
                last_assist_count :=
                  match (resp.result.getD
                      { status := none, feed_assist_count := none }).feed_assist_count with
                  | some c => c
                  | none => info.feed_assist_count }, [])
    ∧ (startAssistCallback cfg s info index resp).1.assist_hit_count
        = s.assist_hit_count := by
  have h : startAssistCallback cfg s info index resp =
      ({ s with park_in_progress := true,
                park_index := index,
                last_assist_count :=
                  match (resp.result.getD
                      { status := none, feed_assist_count := none }).feed_assist_count with
                  | some c => c
                  | none => info.feed_assist_count }, []) := by
    simp [startAssistCallback, hcode]
  exact ⟨h, by rw [h]⟩

/-! ## Correlation table: association-list helpers -/

theorem lookup_filter_ne (l : List (Nat × Nat)) (k : Nat) :
    (l.filter fun p => p.1 != k).lookup k = none := by
  induction l with
  | nil => rfl
  | cons p t ih =>
      by_cases h : p.1 = k
      · simpa [List.filter_cons, h] using ih
      · have hb : (k == p.1) = false := beq_eq_false_iff_ne.mpr (Ne.symm h)
        simp [List.filter_cons, h, List.lookup, hb, ih]

theorem lookup_filter_append (l : List (Nat × Nat)) (k v : Nat) :
    ((l.filter fun p => p.1 != k) ++ [(k, v)]).lookup k = some v := by
  induction l with
  | nil => simp [List.lookup]
  | cons p t ih =>
      by_cases h : p.1 = k
      · simpa [List.filter_cons, h] using ih
      · have hb : (k == p.1) = false := beq_eq_false_iff_ne.mpr (Ne.symm h)
        simp [List.filter_cons, h, List.lookup, hb, ih]

theorem not_mem_filter_self (l : List Nat) (k : Nat) :
    k ∉ l.filter fun t => t != k := by
  simp [List.mem_filter]

/-! ## Outbound queue: retry order (claim C5) -/

/-- Claim C5 is false as stated: with two queued requests, a failed
transmission of the head re-queues it at the BACK (`queue.Queue.put`
appends), so the later-enqueued request is now in front — not the
claimed push-back to the front. -/
theorem C5_counterexample :
    (writerStep false { queue := [(1, 10), (2, 20)] }).1.queue = [(2, 20), (1, 10)]
    ∧ (writerStep false { queue := [(1, 10), (2, 20)] }).1.queue ≠ [(1, 10), (2, 20)] := by
  constructor <;> decide

/-- Claim C5 (amended): when transmission of the dequeued pair fails, the
pair is appended to the BACK of the outbound FIFO (so requests enqueued
behind it are transmitted before the retry), no transmission event is
produced, and the callback has nonetheless already been installed in the
correlation table. -/
theorem C5_requeue_at_back (s : DispatchState) (reqId cb : Nat)
    (rest : List (Nat × Nat)) (hq : s.queue = (reqId, cb) :: rest) :
    writerStep false s =
      ({ s with queue := rest ++ [(reqId, cb)],
                callback_map :=
                  s.callback_map.filter (fun p => p.1 != reqId) ++ [(reqId, cb)] },
       []) := by
  simp [writerStep, hq]

theorem C5_requeue_at_back_witness :
    writerStep false { queue := [(1, 10), (2, 20)] } =
      ({ queue := [(2, 20), (1, 10)],
         callback_map := [(1, 10)] }, []) := by
  have h := C5_requeue_at_back { queue := [(1, 10), (2, 20)] } 1 10 [(2, 20)] rfl
  simpa using h

/-! ## Correlation table: callback invoked at most once (claim C8) -/

/-- Claim C8: for a pending id, timeout firing and normal resolution are
mutually exclusive: if the timeout fires first it invokes the callback
exactly once with the synthetic timeout error and a later response with
that id invokes nothing; if the response arrives first it invokes the
callback once, disarms the timer, and a later timeout firing for that id
invokes nothing. -/
theorem C8_callback_once (s : DispatchState) (reqId cb : Nat) (resp : Response)
    (hcb : s.callback_map.lookup reqId = some cb)
    (hid : resp.id = some reqId) :
    (on_request_timeout reqId s).2 = [Event.invokeCb cb (CallbackArg.timeoutErr reqId)]
    ∧ (handleResponseCorr (on_request_timeout reqId s).1 resp).2 = []
    ∧ (handleResponseCorr s resp).2 = [Event.invokeCb cb (CallbackArg.resp resp)]
    ∧ reqId ∉ (handleResponseCorr s resp).1.timers
    ∧ (on_request_timeout reqId (handleResponseCorr s resp).1).2 = [] := by
  refine ⟨?_, ?_, ?_, ?_, ?_⟩
  · simp [on_request_timeout, hcb]
  · simp [on_request_timeout, handleResponseCorr, hcb, hid, lookup_filter_ne]
  · simp [handleResponseCorr, hid, hcb]
  · simp [handleResponseCorr, hid, hcb]
  · simp [handleResponseCorr, hid, hcb, on_request_timeout, lookup_filter_ne]

theorem C8_callback_once_witness :
    (on_request_timeout 1 { callback_map := [(1, 10)], timers := [1] }).2 =
      [Event.invokeCb 10 (CallbackArg.timeoutErr 1)]
    ∧ (handleResponseCorr (on_request_timeout 1
        { callback_map := [(1, 10)], timers := [1] }).1 { id := some 1 }).2 = []
    ∧ (handleResponseCorr { callback_map := [(1, 10)], timers := [1] }
        { id := some 1 }).2 = [Event.invokeCb 10 (CallbackArg.resp { id := some 1 })]
    ∧ 1 ∉ (handleResponseCorr { callback_map := [(1, 10)], timers := [1] }
        { id := some 1 }).1.timers
    ∧ (on_request_timeout 1 (handleResponseCorr
        { callback_map := [(1, 10)], timers := [1] } { id := some 1 }).1).2 = [] :=
  C8_callback_once { callback_map := [(1, 10)], timers := [1] } 1 10
    { id := some 1 } rfl rfl

/-! ## Timer armed at enqueue, callback installed at send (claim C10) -/

/-- Claim C10: when the timeout for a request fires before the request was
transmitted (its callback not yet in the correlation table), no callback
is invoked and the outbound queue is untouched; the request can then be
transmitted normally, after which its callback is in the table while no
timeout timer is armed for its id any more. -/
theorem C10_timeout_before_send (s : DispatchState) (reqId cb : Nat)
    (rest : List (Nat × Nat))
    (hcb : s.callback_map.lookup reqId = none)
    (hq : s.queue = (reqId, cb) :: rest) :
    (on_request_timeout reqId s).2 = []
    ∧ (on_request_timeout reqId s).1.queue = s.queue
    ∧ (writerStep true (on_request_timeout reqId s).1).2 = [Event.sent reqId]
    ∧ (writerStep true (on_request_timeout reqId s).1).1.callback_map.lookup reqId
        = some cb
    ∧ reqId ∉ (writerStep true (on_request_timeout reqId s).1).1.timers := by
  refine ⟨?_, ?_, ?_, ?_, ?_⟩
  · simp [on_request_timeout, hcb]
  · simp [on_request_timeout, hcb]
  · simp [on_request_timeout, hcb, writerStep, hq]
  · simp [on_request_timeout, hcb, writerStep, hq]
    exact lookup_filter_append _ _ _
  · simp [on_request_timeout, hcb, writerStep, hq]

theorem C10_timeout_before_send_witness :
    (on_request_timeout 1 { queue := [(1, 10)], timers := [1] }).2 = []
    ∧ (on_request_timeout 1 { queue := [(1, 10)], timers := [1] }).1.queue
        = ({ queue := [(1, 10)], timers := [1] } : DispatchState).queue
    ∧ (writerStep true (on_request_timeout 1
        { queue := [(1, 10)], timers := [1] }).1).2 = [Event.sent 1]
    ∧ (writerStep true (on_request_timeout 1
        { queue := [(1, 10)], timers := [1] }).1).1.callback_map.lookup 1 = some 10
    ∧ 1 ∉ (writerStep true (on_request_timeout 1
        { queue := [(1, 10)], timers := [1] }).1).1.timers :=
  C10_timeout_before_send { queue := [(1, 10)], timers := [1] } 1 10 [] rfl rfl

/-! ## Tool change with invalid target slot (claim C7) -/

/-- Claim C7 concerns a tool change from a valid slot to tool "none"
(-1): the spec says parking is skipped entirely and no
`start_feed_assist` is issued, but the source's else-branch still calls
`_proceed_with_toolchange(local_tool, ...)` with `local_tool = -1`,
which runs `_park_to_toolhead(-1)` and sends
`start_feed_assist` with index -1.  Evaluating the embedding at that
input exhibits the divergence. -/
theorem C7_change_tool_sends_assist_for_none :
    cmd_change_tool { current_tool := 0 } {} (-1) =
      ({ park_is_toolchange := true, park_previous_tool := 0 },
       [Event.runScript "_ACE_PRE_TOOLCHANGE", Event.runScript "SAVE_VARIABLE",
        Event.sendReq { method := "unwind_filament", index := some 0,
                        length := some 100, speed := some 50 },
        Event.dwellEv, Event.dwellEv,
        Event.sendReq { method := "start_feed_assist", index := some (-1) },
        Event.dwellEv])
    ∧ Event.sendReq { method := "start_feed_assist", index := some (-1) }
        ∈ (cmd_change_tool { current_tool := 0 } {} (-1)).2 := by
  constructor <;> decide

theorem C6_start_callback_witness :
    startAssistCallback {} { assist_hit_count := 3 } { feed_assist_count := 7 } 1
        { code := some 0 } =
      ({ park_in_progress := true, park_index := 1, last_assist_count := 7,
         assist_hit_count := 3 }, [])
    ∧ (startAssistCallback {} { assist_hit_count := 3 } { feed_assist_count := 7 } 1
        { code := some 0 }).1.assist_hit_count = 3 :=
  C6_start_callback {} { assist_hit_count := 3 } { feed_assist_count := 7 } 1
    { code := some 0 } rfl

/-! ## Decoder: incomplete messages are consumed, not kept (claim C1) -/

theorem findIdx?_some_lt (l : List Nat) (p : Nat → Bool) :
    ∀ (s i : Nat), List.findIdx? p l s = some i → i < s + l.length := by
  induction l with
  | nil => intro s i h; simp [List.findIdx?] at h
  | cons x xs ih =>
      intro s i h
      rw [List.findIdx?_cons] at h
      by_cases hp : p x = true
      · rw [if_pos hp] at h
        injection h with h
        simp [List.length_cons]
        omega
      · rw [if_neg hp] at h
        have := ih (s + 1) i h
        simp [List.length_cons]
        omega

theorem processGo_buffer_suffix :
    ∀ (fuel cnt : Nat) (buf : List Nat) (acc : List (List Nat)) (resets : Nat),
      (processGo fuel cnt buf acc resets).buffer <:+ buf := by
  intro fuel
  induction fuel with
  | zero => intro cnt buf acc resets; exact List.suffix_refl _
  | succ f ih =>
      intro cnt buf acc resets
      simp only [processGo]
      cases hfind : buf.findIdx? (fun b => b == 0xFE) with
      | none => exact List.suffix_refl _
      | some i =>
          simp only
          split_ifs <;>
            exact (ih _ _ _ _).trans (List.drop_suffix _ _)

theorem processGo_fuel_irrel :
    ∀ (fuel cnt : Nat) (buf : List Nat) (acc : List (List Nat)) (resets : Nat),
      buf.length < fuel →
      processGo fuel cnt buf acc resets = processGo (buf.length + 1) cnt buf acc resets := by
  intro fuel
  induction fuel using Nat.strong_induction_on with
  | _ fuel ih =>
    intro cnt buf acc resets hlt
    obtain ⟨f, rfl⟩ : ∃ f, fuel = f + 1 := ⟨fuel - 1, by omega⟩
    simp only [processGo]
    cases hfind : buf.findIdx? (fun b => b == 0xFE) with
    | none => rfl
    | some i =>
        have hi : i < buf.length := by
          have := findIdx?_some_lt buf _ 0 i hfind
          omega
        have hr : (buf.drop (i + 1)).length < buf.length := by
          simp [List.length_drop]; omega
        simp only
        split_ifs <;>
          rw [ih f (by omega) _ _ _ _ (by omega),
              ih buf.length (by omega) _ _ _ _ (by omega)]

/-- Claim C1 is false as stated: a truncated frame whose declared length
exceeds the available bytes is NOT kept buffered — the slice up to and
including the first terminator byte is removed, so the terminator of a
later valid frame IS consumed.  Here a 4-byte truncated header (declared
payload length 100) is followed by a complete valid frame; decoding the
valid frame alone yields it, but decoding the concatenation swallows the
valid frame entirely and empties the buffer. -/
theorem C1_counterexample :
    process_messages ([0xFF, 0xAA, 0x64, 0x00] ++
        [0xFF, 0xAA, 0x01, 0x00, 0x31, 0x8D, 0x2F, 0xFE]) =
      { frames := [], buffer := [], resets := 0 }
    ∧ process_messages [0xFF, 0xAA, 0x01, 0x00, 0x31, 0x8D, 0x2F, 0xFE] =
      { frames := [[0x31]], buffer := [], resets := 0 } := by
  constructor <;> rfl

/-- Claim C1 (amended): when the candidate slice up to the first
terminator is well-headed but shorter than `4 + declared_length + 3`,
`_process_messages` CONSUMES the slice (terminator byte included),
counts one incomplete observation, and continues scanning the remaining
buffer; the slice is not kept for later completion, so at least the
`i + 1` consumed bytes are gone from the final buffer. -/
theorem C1_incomplete_consumed (buf : List Nat) (i : Nat)
    (hf : buf.findIdx? (fun b => b == 0xFE) = some i)
    (hge : ¬((buf.take (i + 1)).length < 7))
    (hsync : (buf.take (i + 1)).take 2 = [0xFF, 0xAA])
    (hshort : (buf.take (i + 1)).length <
      4 + leDecode2 ((buf.take (i + 1)).getD 2 0) ((buf.take (i + 1)).getD 3 0) + 3) :
    process_messages buf =
      processGo ((buf.drop (i + 1)).length + 1) 1 (buf.drop (i + 1)) [] 0
    ∧ (process_messages buf).buffer.length + (i + 1) ≤ buf.length := by
  have hi : i < buf.length := by
    have := findIdx?_some_lt buf _ 0 i hf
    omega
  have hcond : ¬((buf.take (i + 1)).length < 7 ∨
      (buf.take (i + 1)).take 2 ≠ [0xFF, 0xAA]) := by
    push_neg
    exact ⟨by omega, hsync⟩
  have hstep : process_messages buf = processGo buf.length 1 (buf.drop (i + 1)) [] 0 := by
    unfold process_messages
    simp only [processGo, hf]
    rw [if_neg hcond, if_pos hshort, if_neg (by norm_num)]
  have hirrel : processGo buf.length 1 (buf.drop (i + 1)) [] 0 =
      processGo ((buf.drop (i + 1)).length + 1) 1 (buf.drop (i + 1)) [] 0 :=
    processGo_fuel_irrel buf.length 1 (buf.drop (i + 1)) [] 0
      (by simp [List.length_drop]; omega)
  have h1 : process_messages buf =
      processGo ((buf.drop (i + 1)).length + 1) 1 (buf.drop (i + 1)) [] 0 :=
    hstep.trans hirrel
  refine ⟨h1, ?_⟩
  rw [h1]
  have hsuf := processGo_buffer_suffix ((buf.drop (i + 1)).length + 1) 1
    (buf.drop (i + 1)) [] 0
  have hlen := hsuf.length_le
  simp only [List.length_drop] at hlen ⊢
  omega

theorem C1_incomplete_consumed_witness :
    process_messages [0xFF, 0xAA, 0x64, 0x00, 0xFF, 0xAA, 0x01, 0x00, 0x31, 0x8D, 0x2F, 0xFE] =
      processGo ((([0xFF, 0xAA, 0x64, 0x00, 0xFF, 0xAA, 0x01, 0x00, 0x31, 0x8D, 0x2F, 0xFE] : List Nat).drop (11 + 1)).length + 1) 1
        (([0xFF, 0xAA, 0x64, 0x00, 0xFF, 0xAA, 0x01, 0x00, 0x31, 0x8D, 0x2F, 0xFE] : List Nat).drop (11 + 1)) [] 0
    ∧ (process_messages [0xFF, 0xAA, 0x64, 0x00, 0xFF, 0xAA, 0x01, 0x00, 0x31, 0x8D, 0x2F, 0xFE]).buffer.length + (11 + 1) ≤
      ([0xFF, 0xAA, 0x64, 0x00, 0xFF, 0xAA, 0x01, 0x00, 0x31, 0x8D, 0x2F, 0xFE] : List Nat).length :=
  C1_incomplete_consumed
    [0xFF, 0xAA, 0x64, 0x00, 0xFF, 0xAA, 0x01, 0x00, 0x31, 0x8D, 0x2F, 0xFE] 11
    (by decide) (by decide) (by decide) (by decide)

end ValgAce
